import Mathlib

/-!
A shallow embedding of `src/main.c` (learning-vulkan): a single-threaded
render → copy → readback pipeline against the Vulkan driver interface.

Driver calls are opaque and fallible; the embedding models the program as a
straight-line sequence of steps interpreted over an environment `Env` that
supplies each driver call's outcome, the physical device's memory-type table,
queue-family 0's flags, and the 32-bit word read back after mapping.  Running
the program yields the list of driver calls actually issued and the process
outcome: `Except.ok ()` models `return 0` (exit status 0), `Except.error d`
models `check`'s failure path, which prints the description `d` and calls
`exit(-1)` (a non-zero exit status).

Machine integers are modelled as `Nat`; all bit masks in the source are
32-bit flag words and all bitwise operations used (`&`, `<<`, `>>`) agree
with `Nat` semantics on the values that occur (indices below 32, as
guaranteed by `VK_MAX_MEMORY_TYPES = 32`).
-/

namespace LearningVulkan

/-- Vulkan flag and enum constants used by `src/main.c`, with the numeric
values fixed by `vulkan/vulkan.h`. -/
def VK_QUEUE_GRAPHICS_BIT : Nat := 1

def VK_QUEUE_COMPUTE_BIT : Nat := 2

def VK_QUEUE_TRANSFER_BIT : Nat := 4

def VK_MEMORY_PROPERTY_DEVICE_LOCAL_BIT : Nat := 1

def VK_MEMORY_PROPERTY_HOST_VISIBLE_BIT : Nat := 2

def VK_IMAGE_ASPECT_COLOR_BIT : Nat := 1

def VK_PIPELINE_STAGE_COLOR_ATTACHMENT_OUTPUT_BIT : Nat := 0x400

def VK_PIPELINE_STAGE_TRANSFER_BIT : Nat := 0x1000

def VK_PIPELINE_STAGE_HOST_BIT : Nat := 0x4000

def VK_ACCESS_COLOR_ATTACHMENT_WRITE_BIT : Nat := 0x100

def VK_ACCESS_TRANSFER_READ_BIT : Nat := 0x800

def VK_ACCESS_TRANSFER_WRITE_BIT : Nat := 0x1000

def VK_ACCESS_HOST_READ_BIT : Nat := 0x2000

def VK_COMMAND_BUFFER_USAGE_ONE_TIME_SUBMIT_BIT : Nat := 1

def UINT64_MAX : Nat := 18446744073709551615

/-- The image layouts `src/main.c` mentions (`VkImageLayout`). -/
inductive VkImageLayout
  | UNDEFINED
  | GENERAL
  | COLOR_ATTACHMENT_OPTIMAL
  | TRANSFER_SRC_OPTIMAL
  | TRANSFER_DST_OPTIMAL
deriving DecidableEq

/-- The two images the program creates: `write_image` (the render target)
and `read_image` (the host-visible readback target). -/
inductive VkImage
  | write_image
  | read_image
deriving DecidableEq

/-- `check` from `src/main.c` lines 18-24: on a false condition it prints
the description and exits with a non-zero status, modelled as
`Except.error description`. -/
def check (condition : Bool) (description : String) : Except String Unit :=
  if condition then Except.ok () else Except.error description

/-- The loop body of `find_appropriate_memory_type` (`src/main.c` lines
66-76), recursing over the remaining suffix of the memory-type table with
`i` the current value of the out-parameter `*type`.  `remaining` holds the
`propertyFlags` words of the memory types from index `i` on;
`(1 << *type) & reqs.memoryTypeBits` is `(1 <<< i) &&& memoryTypeBits` and
the property test is `(memoryTypes[*type].propertyFlags & props) == props`.
The result pairs the C return value with the final value of `*type`. -/
def find_type_loop (remaining : List Nat) (i memoryTypeBits props : Nat) : Int × Nat :=
  match remaining with
  | [] => (-1, i)
  | propertyFlags :: rest =>
    if (1 <<< i) &&& memoryTypeBits ≠ 0 ∧ propertyFlags &&& props = props then
      (0, i)
    else
      find_type_loop rest (i + 1) memoryTypeBits props

/-- `find_appropriate_memory_type` (`src/main.c` lines 66-76): scans the
memory-type table (given as the list of each type's `propertyFlags`, so
`memoryTypeCount` is the list length) from index 0 upward, returning
`(0, chosen index)` on the first index whose bit is set in
`memoryTypeBits` and whose flags contain `props`, and
`(-1, memoryTypeCount)` when the loop runs off the end. -/
def find_appropriate_memory_type (memoryTypes : List Nat) (memoryTypeBits props : Nat) : Int × Nat :=
  find_type_loop memoryTypes 0 memoryTypeBits props

/-- Red channel decode, `src/main.c` line 550: `pixel & 0xff`. -/
def red (pixel : Nat) : Nat := pixel &&& 0xff

/-- Green channel decode, `src/main.c` line 551: `(pixel >> 8) & 0xff`. -/
def green (pixel : Nat) : Nat := (pixel >>> 8) &&& 0xff

/-- Blue channel decode, `src/main.c` line 552: `(pixel >> 16) & 0xff`. -/
def blue (pixel : Nat) : Nat := (pixel >>> 16) &&& 0xff

/-- Alpha channel decode, `src/main.c` line 553: `(pixel >> 24) & 0xff`. -/
def alpha (pixel : Nat) : Nat := (pixel >>> 24) &&& 0xff

/-- One entry of the `VkImageMemoryBarrier` arrays passed to
`vkCmdPipelineBarrier` (`src/main.c` lines 396-427 and 480-496), keeping
the fields relevant for layout and access tracking. -/
structure VkImageMemoryBarrier where
  srcAccessMask : Nat
  dstAccessMask : Nat
  oldLayout : VkImageLayout
  newLayout : VkImageLayout
  image : VkImage
deriving DecidableEq

/-- `VkExtent3D`. -/
structure VkExtent3D where
  width : Nat
  height : Nat
  depth : Nat
deriving DecidableEq

/-- The commands recorded into the command buffer (`vkCmd*` calls in
`src/main.c` lines 354-509).  Clear color channels are exact rationals, as
the source's literals `1.0` and `0.0` are exactly representable. -/
inductive Cmd
  | beginRenderPass (renderAreaWidth renderAreaHeight : Nat)
  | clearAttachments (aspectMask colorAttachment : Nat) (r g b a : ℚ)
      (rectWidth rectHeight layerCount : Nat)
  | endRenderPass
  | pipelineBarrier (srcStage dstStage : Nat) (imageBarriers : List VkImageMemoryBarrier)
  | copyImage (src : VkImage) (srcLayout : VkImageLayout)
      (dst : VkImage) (dstLayout : VkImageLayout) (extent : VkExtent3D)
deriving DecidableEq

/-- `vkCmdBeginRenderPass` with the 400x400 render area (lines 354-364). -/
def cmd_begin_render_pass : Cmd := Cmd.beginRenderPass 400 400

/-- `vkCmdClearAttachments` (lines 366-382): color aspect, attachment 0,
clear value (1.0, 1.0, 0.0, 1.0), one 400x400 rect with one layer. -/
def cmd_clear : Cmd :=
  Cmd.clearAttachments VK_IMAGE_ASPECT_COLOR_BIT 0 1 1 0 1 400 400 1

/-- `vkCmdEndRenderPass` (line 383). -/
def cmd_end_render_pass : Cmd := Cmd.endRenderPass

/-- The first `vkCmdPipelineBarrier` (lines 386-440): color-attachment-output
to transfer, transitioning `read_image` undefined → transfer-destination
(access 0 → transfer-write) and `write_image` color-attachment-optimal →
transfer-source (access color-attachment-write → transfer-read). -/
def barrier_A : Cmd :=
  Cmd.pipelineBarrier VK_PIPELINE_STAGE_COLOR_ATTACHMENT_OUTPUT_BIT VK_PIPELINE_STAGE_TRANSFER_BIT
    [ { srcAccessMask := 0
        dstAccessMask := VK_ACCESS_TRANSFER_WRITE_BIT
        oldLayout := VkImageLayout.UNDEFINED
        newLayout := VkImageLayout.TRANSFER_DST_OPTIMAL
        image := VkImage.read_image },
      { srcAccessMask := VK_ACCESS_COLOR_ATTACHMENT_WRITE_BIT
        dstAccessMask := VK_ACCESS_TRANSFER_READ_BIT
        oldLayout := VkImageLayout.COLOR_ATTACHMENT_OPTIMAL
        newLayout := VkImageLayout.TRANSFER_SRC_OPTIMAL
        image := VkImage.write_image } ]

/-- `vkCmdCopyImage` (lines 442-468): one full-extent 400x400x1 region from
`write_image` in transfer-source layout to `read_image` in
transfer-destination layout. -/
def cmd_copy : Cmd :=
  Cmd.copyImage VkImage.write_image VkImageLayout.TRANSFER_SRC_OPTIMAL
    VkImage.read_image VkImageLayout.TRANSFER_DST_OPTIMAL ⟨400, 400, 1⟩

/-- The second `vkCmdPipelineBarrier` (lines 470-509): transfer to host,
transitioning `read_image` transfer-destination → general
(access transfer-write → host-read). -/
def barrier_B : Cmd :=
  Cmd.pipelineBarrier VK_PIPELINE_STAGE_TRANSFER_BIT VK_PIPELINE_STAGE_HOST_BIT
    [ { srcAccessMask := VK_ACCESS_TRANSFER_WRITE_BIT
        dstAccessMask := VK_ACCESS_HOST_READ_BIT
        oldLayout := VkImageLayout.TRANSFER_DST_OPTIMAL
        newLayout := VkImageLayout.GENERAL
        image := VkImage.read_image } ]

/-- The fallible driver calls `main` issues, with the arguments the claims
track.  Calls that only print diagnostics and return no status that `main`
checks (`vkEnumerateInstanceLayerProperties`, `vkGetPhysicalDevice*`,
`vkGetDeviceQueue`, `vkGetImageMemoryRequirements`, `vkMapMemory`'s data
pointer) are not part of the checked contract and carry no payload here. -/
inductive Call
  | createInstance
  | enumeratePhysicalDevices
  | createDevice
  | createImage (image : VkImage)
  | allocateMemory (image : VkImage) (memoryTypeIndex : Nat)
  | bindImageMemory (image : VkImage)
  | createImageView (image : VkImage)
  | createRenderPass
  | createFramebuffer
  | createCommandPool
  | allocateCommandBuffers
  | beginCommandBuffer (flags : Nat)
  | cmd (c : Cmd)
  | endCommandBuffer
  | createFence (flags : Nat)
  | queueSubmit (withFence : Bool)
  | waitForFences (waitAll : Bool) (timeout : Nat)
  | mapMemory
deriving DecidableEq

/-- The call sites of `main` whose `VkResult` is tested by `check`. -/
inductive CallSite
  | createInstance
  | enumeratePhysicalDevices
  | createDevice
  | createImage_write
  | allocateMemory_write
  | bindImageMemory_write
  | createImageView_write
  | createImage_read
  | allocateMemory_read
  | bindImageMemory_read
  | createImageView_read
  | createRenderPass
  | createFramebuffer
  | createCommandPool
  | allocateCommandBuffers
  | beginCommandBuffer
  | endCommandBuffer
  | createFence
  | queueSubmit
  | waitForFences
  | mapMemory
deriving DecidableEq

/-- The environment `main` runs against: which driver calls succeed
(`ok s = true` models `VK_SUCCESS` at site `s`), queue family 0's
`queueFlags`, the memory-type table (`propertyFlags` per type), the
`memoryTypeBits` of each image's memory requirements, and the 32-bit word
read at the mapped base address of the readback memory. -/
structure Env where
  ok : CallSite → Bool
  queueFlags0 : Nat
  memoryTypes : List Nat
  write_memoryTypeBits : Nat
  read_memoryTypeBits : Nat
  pixel : Nat

/-- The memory-type selection `main` performs for `write_image`
(`src/main.c` lines 194-199): device-local only. -/
def write_image_selection (env : Env) : Int × Nat :=
  find_appropriate_memory_type env.memoryTypes env.write_memoryTypeBits
    VK_MEMORY_PROPERTY_DEVICE_LOCAL_BIT

/-- The memory-type selection `main` performs for `read_image`
(`src/main.c` lines 247-252): host-visible only. -/
def read_image_selection (env : Env) : Int × Nat :=
  find_appropriate_memory_type env.memoryTypes env.read_memoryTypeBits
    VK_MEMORY_PROPERTY_HOST_VISIBLE_BIT

/-- One step of the straight-line program `main`: a checked driver call
(the call to issue, whether it succeeds, and the `check` description), a
command recorded into the command buffer (`vkCmd*` calls return no
status), or a host-side `check` of a computed condition. -/
inductive Step
  | call (c : Env → Call) (ok : Env → Bool) (description : String)
  | record (c : Cmd)
  | hostCheck (condition : Env → Bool) (description : String)

/-- Interprets a step list: each driver call is appended to the trace and
its result passed through `check`; a failed `check` stops execution with
the error description, as `exit(-1)` stops `main`. -/
def exec (env : Env) : List Step → List Call × Except String Unit
  | [] => ([], Except.ok ())
  | Step.call c ok d :: rest =>
    match check (ok env) d with
    | Except.ok _ => (c env :: (exec env rest).1, (exec env rest).2)
    | Except.error e => ([c env], Except.error e)
  | Step.record c :: rest => (Call.cmd c :: (exec env rest).1, (exec env rest).2)
  | Step.hostCheck condition d :: rest =>
    match check (condition env) d with
    | Except.ok _ => exec env rest
    | Except.error e => ([], Except.error e)

/-- `main` (`src/main.c` lines 78-562) as a step list, in source order.
Purely diagnostic enumeration and printing is omitted; every checked call
and every recorded command appears, with the literal `check` description
strings of the source. -/
def program : List Step := [
  Step.call (fun _ => Call.createInstance) (fun env => env.ok CallSite.createInstance) "",
  Step.call (fun _ => Call.enumeratePhysicalDevices) (fun env => env.ok CallSite.enumeratePhysicalDevices) "",
  Step.hostCheck (fun env => (env.queueFlags0 &&& (VK_QUEUE_GRAPHICS_BIT ||| VK_QUEUE_TRANSFER_BIT)) != 0) "",
  Step.call (fun _ => Call.createDevice) (fun env => env.ok CallSite.createDevice) "vkCreateDevice",
  Step.call (fun _ => Call.createImage VkImage.write_image) (fun env => env.ok CallSite.createImage_write) "vkCreateImage(write_image)",
  Step.hostCheck (fun env => (write_image_selection env).1 == 0) "find_appropriate_memory_type for write_image",
  Step.call (fun env => Call.allocateMemory VkImage.write_image (write_image_selection env).2) (fun env => env.ok CallSite.allocateMemory_write) "vkAllocateMemory(write_image)",
  Step.call (fun _ => Call.bindImageMemory VkImage.write_image) (fun env => env.ok CallSite.bindImageMemory_write) "vkBindImageMemory(write_image)",
  Step.call (fun _ => Call.createImageView VkImage.write_image) (fun env => env.ok CallSite.createImageView_write) "vkCreateImageView(write_image)",
  Step.call (fun _ => Call.createImage VkImage.read_image) (fun env => env.ok CallSite.createImage_read) "vkCreateImage(read_image)",
  Step.hostCheck (fun env => (read_image_selection env).1 == 0) "find_appropriate_memory_type for read_image",
  Step.call (fun env => Call.allocateMemory VkImage.read_image (read_image_selection env).2) (fun env => env.ok CallSite.allocateMemory_read) "vkAllocateMemory(read_image)",
  Step.call (fun _ => Call.bindImageMemory VkImage.read_image) (fun env => env.ok CallSite.bindImageMemory_read) "vkBindImageMemory(read_image)",
  Step.call (fun _ => Call.createImageView VkImage.read_image) (fun env => env.ok CallSite.createImageView_read) "vkCreateImageView(read_image)",
  Step.call (fun _ => Call.createRenderPass) (fun env => env.ok CallSite.createRenderPass) "vkCreateRenderPass",
  Step.call (fun _ => Call.createFramebuffer) (fun env => env.ok CallSite.createFramebuffer) "vkFramebufferCreateInfo",
  Step.call (fun _ => Call.createCommandPool) (fun env => env.ok CallSite.createCommandPool) "vkCommandPoolCreateInfo",
  Step.call (fun _ => Call.allocateCommandBuffers) (fun env => env.ok CallSite.allocateCommandBuffers) "vkAllocateCommandBuffers",
  Step.call (fun _ => Call.beginCommandBuffer VK_COMMAND_BUFFER_USAGE_ONE_TIME_SUBMIT_BIT) (fun env => env.ok CallSite.beginCommandBuffer) "vkBeginCommandBuffer",
  Step.record cmd_begin_render_pass,
  Step.record cmd_clear,
  Step.record cmd_end_render_pass,
  Step.record barrier_A,
  Step.record cmd_copy,
  Step.record barrier_B,
  Step.call (fun _ => Call.endCommandBuffer) (fun env => env.ok CallSite.endCommandBuffer) "vkEndCommandBuffer",
  Step.call (fun _ => Call.createFence 0) (fun env => env.ok CallSite.createFence) "vkCreateFence",
  Step.call (fun _ => Call.queueSubmit true) (fun env => env.ok CallSite.queueSubmit) "vkQueueSubmit",
  Step.call (fun _ => Call.waitForFences true UINT64_MAX) (fun env => env.ok CallSite.waitForFences) "vkWaitForFence",
  Step.call (fun _ => Call.mapMemory) (fun env => env.ok CallSite.mapMemory) "vkMapMemory",
  Step.hostCheck (fun env => red env.pixel == 0xff) "red == 0xff",
  Step.hostCheck (fun env => green env.pixel == 0xff) "green == 0xff",
  Step.hostCheck (fun env => blue env.pixel == 0) "blue == 0",
  Step.hostCheck (fun env => alpha env.pixel == 0xff) "alpha == 0xff"
]

/-- Running `main` against an environment. -/
def run (env : Env) : List Call × Except String Unit := exec env program

/-- All driver calls a step list would issue if nothing failed. -/
def allCalls (env : Env) : List Step → List Call
  | [] => []
  | Step.call c _ _ :: rest => c env :: allCalls env rest
  | Step.record c :: rest => Call.cmd c :: allCalls env rest
  | Step.hostCheck _ _ :: rest => allCalls env rest

/-- Whether every checked condition of a step list holds in `env`. -/
def stepsPass (env : Env) : List Step → Bool
  | [] => true
  | Step.call _ ok _ :: rest => ok env && stepsPass env rest
  | Step.record _ :: rest => stepsPass env rest
  | Step.hostCheck condition _ :: rest => condition env && stepsPass env rest

/-- The commands recorded into the command buffer during a trace. -/
def recordedCmds (trace : List Call) : List Cmd :=
  trace.filterMap fun c =>
    match c with
    | Call.cmd op => some op
    | _ => none

/-- Recognizes `vkQueueSubmit` calls in a trace. -/
def Call.isQueueSubmit : Call → Bool
  | Call.queueSubmit _ => true
  | _ => false

/-- Recognizes `vkWaitForFences` calls in a trace. -/
def Call.isWaitForFences : Call → Bool
  | Call.waitForFences _ _ => true
  | _ => false

/-- Recognizes `vkMapMemory` calls in a trace. -/
def Call.isMapMemory : Call → Bool
  | Call.mapMemory => true
  | _ => false

/-- Recognizes `vkAllocateMemory` calls for a given image. -/
def Call.isAllocateMemoryFor (image : VkImage) : Call → Bool
  | Call.allocateMemory i _ => i == image
  | _ => false

/-- Recognizes `vkBindImageMemory` calls for a given image. -/
def Call.isBindImageMemoryFor (image : VkImage) : Call → Bool
  | Call.bindImageMemory i => i == image
  | _ => false

/-- Recognizes the command-buffer lifecycle events: begin recording,
recorded commands, end recording. -/
def Call.isRecordingEvent : Call → Bool
  | Call.beginCommandBuffer _ => true
  | Call.cmd _ => true
  | Call.endCommandBuffer => true
  | _ => false

/-- The `finalLayout` of the render pass's single color attachment
(`src/main.c` line 286): the render pass leaves the render target in
color-attachment-optimal layout. -/
def color_attachment_finalLayout : VkImageLayout := VkImageLayout.COLOR_ATTACHMENT_OPTIMAL

/-- Both images are created with `initialLayout = VK_IMAGE_LAYOUT_UNDEFINED`
(`src/main.c` lines 182 and 235). -/
def image_initialLayout : VkImageLayout := VkImageLayout.UNDEFINED

/-- The tracked layout of each of the two images. -/
structure LayoutState where
  write_layout : VkImageLayout
  read_layout : VkImageLayout
deriving DecidableEq

/-- The tracked layout of one image. -/
def LayoutState.layoutOf (st : LayoutState) : VkImage → VkImageLayout
  | VkImage.write_image => st.write_layout
  | VkImage.read_image => st.read_layout

/-- Updates the tracked layout of one image. -/
def LayoutState.setLayout (st : LayoutState) : VkImage → VkImageLayout → LayoutState
  | VkImage.write_image, l => { st with write_layout := l }
  | VkImage.read_image, l => { st with read_layout := l }

/-- Applies the transitions of one barrier call in order: each barrier's
`oldLayout` must equal the image's tracked layout, which then becomes
`newLayout`; otherwise the declared layout is stale and tracking fails. -/
def applyBarriers (st : LayoutState) : List VkImageMemoryBarrier → Option LayoutState
  | [] => some st
  | b :: rest =>
    if st.layoutOf b.image = b.oldLayout then
      applyBarriers (st.setLayout b.image b.newLayout) rest
    else
      none

/-- Applies one recorded command to the layout tracker.  Ending the render
pass establishes the attachment's `finalLayout` on the render target; a
copy requires its declared source and destination layouts to equal the
tracked ones and changes no layout; clears and render-pass begin declare
no layout. -/
def applyCmd (st : LayoutState) : Cmd → Option LayoutState
  | Cmd.beginRenderPass _ _ => some st
  | Cmd.clearAttachments .. => some st
  | Cmd.endRenderPass => some (st.setLayout VkImage.write_image color_attachment_finalLayout)
  | Cmd.pipelineBarrier _ _ imageBarriers => applyBarriers st imageBarriers
  | Cmd.copyImage src srcLayout dst dstLayout _ =>
    if st.layoutOf src = srcLayout ∧ st.layoutOf dst = dstLayout then some st else none

/-- Checks the whole recorded command sequence against the layout tracker. -/
def layoutsConsistent (st : LayoutState) : List Cmd → Bool
  | [] => true
  | c :: rest =>
    match applyCmd st c with
    | some st2 => layoutsConsistent st2 rest
    | none => false

/-- The tracked layouts at creation time: both images undefined. -/
def initialLayouts : LayoutState := ⟨image_initialLayout, image_initialLayout⟩

/-! Generic facts about the interpreter. -/

theorem exec_call_pass {env : Env} {c : Env → Call} {ok : Env → Bool} {d : String}
    {rest : List Step} (h : ok env = true) :
    exec env (Step.call c ok d :: rest) =
      (c env :: (exec env rest).1, (exec env rest).2) := by
  simp [exec, check, h]

theorem exec_call_fail {env : Env} {c : Env → Call} {ok : Env → Bool} {d : String}
    {rest : List Step} (h : ok env = false) :
    exec env (Step.call c ok d :: rest) = ([c env], Except.error d) := by
  simp [exec, check, h]

theorem exec_record {env : Env} {c : Cmd} {rest : List Step} :
    exec env (Step.record c :: rest) =
      (Call.cmd c :: (exec env rest).1, (exec env rest).2) := by
  simp [exec]

theorem exec_check_pass {env : Env} {condition : Env → Bool} {d : String}
    {rest : List Step} (h : condition env = true) :
    exec env (Step.hostCheck condition d :: rest) = exec env rest := by
  simp [exec, check, h]

theorem exec_check_fail {env : Env} {condition : Env → Bool} {d : String}
    {rest : List Step} (h : condition env = false) :
    exec env (Step.hostCheck condition d :: rest) = ([], Except.error d) := by
  simp [exec, check, h]

/-- Execution is sequential: running `s ++ t` runs `s`, and runs `t` only
when `s` completed without a failed check. -/
theorem exec_append (env : Env) (s t : List Step) :
    exec env (s ++ t) =
      match (exec env s).2 with
      | Except.ok _ => ((exec env s).1 ++ (exec env t).1, (exec env t).2)
      | Except.error e => ((exec env s).1, Except.error e) := by
  induction s with
  | nil => simp [exec]
  | cons head rest ih =>
    cases head with
    | call c ok d =>
      by_cases h : ok env = true
      · rw [List.cons_append, exec_call_pass h, exec_call_pass h, ih]
        cases h2 : (exec env rest).2 <;> simp
      · rw [List.cons_append, exec_call_fail (Bool.not_eq_true _ ▸ h),
          exec_call_fail (Bool.not_eq_true _ ▸ h)]
    | record c =>
      rw [List.cons_append, exec_record, exec_record, ih]
      cases h2 : (exec env rest).2 <;> simp
    | hostCheck condition d =>
      by_cases h : condition env = true
      · rw [List.cons_append, exec_check_pass h, exec_check_pass h, ih]
      · rw [List.cons_append, exec_check_fail (Bool.not_eq_true _ ▸ h),
          exec_check_fail (Bool.not_eq_true _ ▸ h)]

/-- The issued trace is always an initial segment of the calls the step
list would issue: nothing is issued past a failed check. -/
theorem exec_trace_initial (env : Env) (s : List Step) :
    (exec env s).1 <+: allCalls env s := by
  induction s with
  | nil => simp [exec, allCalls]
  | cons head rest ih =>
    cases head with
    | call c ok d =>
      by_cases h : ok env = true
      · rw [exec_call_pass h]
        simpa [allCalls] using ih
      · rw [exec_call_fail (Bool.not_eq_true _ ▸ h)]
        simp [allCalls]
    | record c =>
      rw [exec_record]
      simpa [allCalls] using ih
    | hostCheck condition d =>
      by_cases h : condition env = true
      · rw [exec_check_pass h]
        exact ih.trans (by simp [allCalls])
      · rw [exec_check_fail (Bool.not_eq_true _ ▸ h)]
        simp [allCalls]

/-- When every check passes, execution issues every call and succeeds. -/
theorem exec_all_pass (env : Env) (s : List Step) (h : stepsPass env s = true) :
    exec env s = (allCalls env s, Except.ok ()) := by
  induction s with
  | nil => simp [exec, allCalls]
  | cons head rest ih =>
    cases head with
    | call c ok d =>
      rw [stepsPass, Bool.and_eq_true] at h
      rw [exec_call_pass h.1, ih h.2, allCalls]
    | record c =>
      rw [stepsPass] at h
      rw [exec_record, ih h, allCalls]
    | hostCheck condition d =>
      rw [stepsPass, Bool.and_eq_true] at h
      rw [exec_check_pass h.1, ih h.2, allCalls]

/-- Execution succeeds exactly when every check passes. -/
theorem exec_ok_iff (env : Env) (s : List Step) :
    (exec env s).2 = Except.ok () ↔ stepsPass env s = true := by
  induction s with
  | nil => simp [exec, stepsPass]
  | cons head rest ih =>
    cases head with
    | call c ok d =>
      by_cases h : ok env = true
      · rw [exec_call_pass h, stepsPass]
        simp [h, ih]
      · rw [exec_call_fail (Bool.not_eq_true _ ▸ h), stepsPass]
        simp [Bool.not_eq_true _ ▸ h]
    | record c =>
      rw [exec_record, stepsPass]
      exact ih
    | hostCheck condition d =>
      by_cases h : condition env = true
      · rw [exec_check_pass h, stepsPass]
        simp [h, ih]
      · rw [exec_check_fail (Bool.not_eq_true _ ▸ h), stepsPass]
        simp [Bool.not_eq_true _ ▸ h]

/-- An initial segment whose whole list filters to nothing filters to
nothing itself. -/
theorem filter_eq_nil_of_initial {α : Type} {l L : List α} {p : α → Bool}
    (h : l <+: L) (hL : L.filter p = []) : l.filter p = [] := by
  have h2 : l.filter p <+: L.filter p := h.filter p
  rw [hL] at h2
  exact List.prefix_nil.mp h2

/-- Membership in the issued trace implies membership in the full call
list of the step list. -/
theorem mem_of_mem_exec {env : Env} {s : List Step} {c : Call}
    (h : c ∈ (exec env s).1) : c ∈ allCalls env s :=
  (exec_trace_initial env s).sublist.subset h

/-! Bitwise facts connecting the source's mask tests to bit predicates. -/

/-- `props` is a subset of `flags` bit for bit: the sense in which a memory
type's property flags are a superset of the required flags. -/
def hasAllFlags (flags props : Nat) : Prop :=
  ∀ b, Nat.testBit props b = true → Nat.testBit flags b = true

/-- The source's property test `(flags & props) == props` holds exactly
when `flags` is a superset of `props` bit for bit. -/
theorem and_eq_iff_hasAllFlags (flags props : Nat) :
    flags &&& props = props ↔ hasAllFlags flags props := by
  constructor
  · intro h b hb
    have h2 := congrArg (fun n => Nat.testBit n b) h
    simp only [Nat.testBit_and, hb, Bool.and_true] at h2
    exact h2
  · intro h
    apply Nat.eq_of_testBit_eq
    intro b
    rw [Nat.testBit_and]
    cases hp : Nat.testBit props b
    · simp
    · simp [h b hp]

instance (flags props : Nat) : Decidable (hasAllFlags flags props) :=
  decidable_of_iff (flags &&& props = props) (and_eq_iff_hasAllFlags flags props)

/-- The source's mask test `(1 << i) & bits` is nonzero exactly when bit
`i` of `bits` is set. -/
theorem one_shift_and_ne_zero (bits i : Nat) :
    (1 <<< i) &&& bits ≠ 0 ↔ Nat.testBit bits i = true := by
  rw [Nat.shiftLeft_eq, one_mul, Nat.two_pow_and]
  constructor
  · intro h
    cases hb : Nat.testBit bits i
    · rw [hb] at h; simp at h
    · rfl
  · intro h
    rw [h]
    have h2 := Nat.two_pow_pos i
    simp only [Bool.toNat_true, mul_one]
    omega

/-- Full characterization of the selection loop from any starting index:
either it stops at the first offset `j` whose absolute index `i + j`
passes both tests, returning `(0, i + j)`, or no offset passes and it
returns `(-1, i + length)`. -/
theorem find_type_loop_spec (memoryTypeBits props : Nat) :
    ∀ (L : List Nat) (i : Nat),
      (∃ j, j < L.length ∧
        (1 <<< (i + j)) &&& memoryTypeBits ≠ 0 ∧
        L.getD j 0 &&& props = props ∧
        (∀ k, k < j →
          ¬((1 <<< (i + k)) &&& memoryTypeBits ≠ 0 ∧ L.getD k 0 &&& props = props)) ∧
        find_type_loop L i memoryTypeBits props = (0, i + j)) ∨
      ((∀ j, j < L.length →
          ¬((1 <<< (i + j)) &&& memoryTypeBits ≠ 0 ∧ L.getD j 0 &&& props = props)) ∧
        find_type_loop L i memoryTypeBits props = (-1, i + L.length)) := by
  intro L
  induction L with
  | nil =>
    intro i
    right
    constructor
    · intro j hj
      simp at hj
    · simp [find_type_loop]
  | cons propertyFlags rest ih =>
    intro i
    by_cases h : (1 <<< i) &&& memoryTypeBits ≠ 0 ∧ propertyFlags &&& props = props
    · left
      refine ⟨0, by simp, by simpa using h.1, by simpa using h.2, ?_, ?_⟩
      · intro k hk
        exact absurd hk (Nat.not_lt_zero k)
      · simp [find_type_loop, h]
    · have hstep : find_type_loop (propertyFlags :: rest) i memoryTypeBits props =
          find_type_loop rest (i + 1) memoryTypeBits props := by
        simp [find_type_loop, h]
      rcases ih (i + 1) with ⟨j, hj, hb, hp, hmin, heq⟩ | ⟨hnone, heq⟩
      · left
        refine ⟨j + 1, by simpa using Nat.succ_lt_succ hj, ?_, by simpa using hp, ?_, ?_⟩
        · have harith : i + (j + 1) = (i + 1) + j := by omega
          rw [harith]
          exact hb
        · intro k hk
          cases k with
          | zero => simpa using h
          | succ k2 =>
            have harith : i + (k2 + 1) = (i + 1) + k2 := by omega
            rw [harith]
            simpa using hmin k2 (by omega)
        · rw [hstep, heq]
          have harith : (i + 1) + j = i + (j + 1) := by omega
          rw [harith]
      · right
        constructor
        · intro j hj
          cases j with
          | zero => simpa using h
          | succ j2 =>
            have hlt : j2 < rest.length := by simpa using hj
            have harith : i + (j2 + 1) = (i + 1) + j2 := by omega
            rw [harith]
            simpa using hnone j2 hlt
        · rw [hstep, heq]
          have harith : (i + 1) + rest.length = i + (propertyFlags :: rest).length := by
            simp
            omega
          rw [harith]

/-- C1: for every memory-type table (of at most `VK_MAX_MEMORY_TYPES = 32`
entries, the C domain of `1 << *type`), compatible-type bitmask, and
required property-flag set, if `find_appropriate_memory_type` returns `0`
then the index it stores is the lowest index whose bit is set in the
bitmask and whose property flags are a superset of the required flags; if
no index satisfies both conditions it returns `-1`; the return value is
always `0` or `-1`, deterministically, with no fallback to a weaker
property set. -/
theorem spec_C1 (memoryTypes : List Nat) (memoryTypeBits props : Nat)
    (_hlen : memoryTypes.length ≤ 32) :
    ∀ r : Int × Nat, find_appropriate_memory_type memoryTypes memoryTypeBits props = r →
      (r.1 = 0 ∨ r.1 = -1) ∧
      (r.1 = 0 →
        r.2 < memoryTypes.length ∧
        Nat.testBit memoryTypeBits r.2 = true ∧
        hasAllFlags (memoryTypes.getD r.2 0) props ∧
        (∀ j, j < r.2 →
          ¬(Nat.testBit memoryTypeBits j = true ∧ hasAllFlags (memoryTypes.getD j 0) props))) ∧
      ((∀ j, j < memoryTypes.length →
          ¬(Nat.testBit memoryTypeBits j = true ∧ hasAllFlags (memoryTypes.getD j 0) props)) →
        r.1 = -1) := by
  intro r hr
  rw [find_appropriate_memory_type] at hr
  rcases find_type_loop_spec memoryTypeBits props memoryTypes 0 with
    ⟨j, hj, hb, hp, hmin, heq⟩ | ⟨hnone, heq⟩
  · rw [heq] at hr
    have hr1 : r.1 = 0 := by rw [← hr]
    have hr2 : r.2 = j := by rw [← hr]; simp
    refine ⟨Or.inl hr1, ?_, ?_⟩
    · intro _
      rw [hr2]
      refine ⟨hj, ?_, (and_eq_iff_hasAllFlags _ _).mp hp, ?_⟩
      · exact (one_shift_and_ne_zero _ _).mp (by simpa using hb)
      · intro k hk hks
        exact hmin k hk
          ⟨by simpa using (one_shift_and_ne_zero _ _).mpr hks.1,
            (and_eq_iff_hasAllFlags _ _).mpr hks.2⟩
    · intro hno
      exact ((hno j hj ⟨(one_shift_and_ne_zero _ _).mp (by simpa using hb),
        (and_eq_iff_hasAllFlags _ _).mp hp⟩)).elim
  · rw [heq] at hr
    have hr1 : r.1 = -1 := by rw [← hr]
    refine ⟨Or.inr hr1, ?_, fun _ => hr1⟩
    intro h0
    rw [hr1] at h0
    exact absurd h0 (by decide)

/-- Witness for `spec_C1`: on the table `[2, 3]` with mask `0b10` and
required flags `1`, the selector succeeds and the stored index has its bit
set in the mask and flags containing the request. -/
theorem spec_C1_witness :
    Nat.testBit 2 (find_appropriate_memory_type [2, 3] 2 1).2 = true ∧
    hasAllFlags ([2, 3].getD (find_appropriate_memory_type [2, 3] 2 1).2 0) 1 := by
  obtain ⟨-, h2, -⟩ :=
    spec_C1 [2, 3] 2 1 (by decide) (find_appropriate_memory_type [2, 3] 2 1) rfl
  obtain ⟨-, hbit, hflags, -⟩ := h2 (by decide)
  exact ⟨hbit, hflags⟩

/-- C10: `find_appropriate_memory_type` determines its out-parameter on
every input: when it returns `-1` the stored index equals
`memoryTypeCount` (one past the last index scanned), and when it returns
`0` the stored index is the selected (lowest suitable) index; the
out-parameter is never left unwritten. -/
theorem spec_C10 (memoryTypes : List Nat) (memoryTypeBits props : Nat) :
    ∀ r : Int × Nat, find_appropriate_memory_type memoryTypes memoryTypeBits props = r →
      (r.1 = 0 ∨ r.1 = -1) ∧
      (r.1 = -1 → r.2 = memoryTypes.length) ∧
      (r.1 = 0 →
        r.2 < memoryTypes.length ∧
        (1 <<< r.2) &&& memoryTypeBits ≠ 0 ∧
        memoryTypes.getD r.2 0 &&& props = props ∧
        (∀ j, j < r.2 →
          ¬((1 <<< j) &&& memoryTypeBits ≠ 0 ∧ memoryTypes.getD j 0 &&& props = props))) := by
  intro r hr
  rw [find_appropriate_memory_type] at hr
  rcases find_type_loop_spec memoryTypeBits props memoryTypes 0 with
    ⟨j, hj, hb, hp, hmin, heq⟩ | ⟨hnone, heq⟩
  · rw [heq] at hr
    have hr1 : r.1 = 0 := by rw [← hr]
    have hr2 : r.2 = j := by rw [← hr]; simp
    refine ⟨Or.inl hr1, ?_, ?_⟩
    · intro h1
      rw [hr1] at h1
      exact absurd h1 (by decide)
    · intro _
      rw [hr2]
      refine ⟨hj, by simpa using hb, hp, ?_⟩
      intro k hk hks
      exact hmin k hk (by simpa using hks)
  · rw [heq] at hr
    have hr1 : r.1 = -1 := by rw [← hr]
    have hr2 : r.2 = memoryTypes.length := by rw [← hr]; simp
    refine ⟨Or.inr hr1, fun _ => hr2, ?_⟩
    intro h0
    rw [hr1] at h0
    exact absurd h0 (by decide)

/-- Witness for `spec_C10`: on `[0]` with mask `1` and flags `1` the
selector fails and stores the table length; on `[3]` it succeeds and
stores the selected index `0`. -/
theorem spec_C10_witness :
    (find_appropriate_memory_type [0] 1 1).2 = [0].length ∧
    (find_appropriate_memory_type [3] 1 1).2 < [3].length := by
  obtain ⟨-, hfail, -⟩ := spec_C10 [0] 1 1 (find_appropriate_memory_type [0] 1 1) rfl
  obtain ⟨-, -, hfound⟩ := spec_C10 [3] 1 1 (find_appropriate_memory_type [3] 1 1) rfl
  exact ⟨hfail (by decide), (hfound (by decide)).1⟩

/-! Arithmetic form of the channel decodes. -/

theorem red_eq (pixel : Nat) : red pixel = pixel % 256 := by
  have h := Nat.and_pow_two_sub_one_eq_mod pixel 8
  norm_num at h
  simpa [red] using h

theorem green_eq (pixel : Nat) : green pixel = pixel / 256 % 256 := by
  rw [green, Nat.shiftRight_eq_div_pow]
  have h := Nat.and_pow_two_sub_one_eq_mod (pixel / 2 ^ 8) 8
  norm_num at h ⊢
  exact h

theorem blue_eq (pixel : Nat) : blue pixel = pixel / 65536 % 256 := by
  rw [blue, Nat.shiftRight_eq_div_pow]
  have h := Nat.and_pow_two_sub_one_eq_mod (pixel / 2 ^ 16) 8
  norm_num at h ⊢
  exact h

theorem alpha_eq (pixel : Nat) : alpha pixel = pixel / 16777216 % 256 := by
  rw [alpha, Nat.shiftRight_eq_div_pow]
  have h := Nat.and_pow_two_sub_one_eq_mod (pixel / 2 ^ 24) 8
  norm_num at h ⊢
  exact h

/-- C2: the validation decodes the 32-bit word read at the mapped base
address little-endian (byte 0 = red, byte 1 = green, byte 2 = blue,
byte 3 = alpha) and its four channel checks all pass exactly when the
channels equal (0xFF, 0xFF, 0x00, 0xFF), i.e. exactly when the packed
word equals `0xFF00FFFF`; any differing channel fails some check. -/
theorem spec_C2 :
    (∀ pixel : Nat, pixel < 4294967296 →
      ((red pixel = 0xff ∧ green pixel = 0xff ∧ blue pixel = 0 ∧ alpha pixel = 0xff) ↔
        pixel = 0xFF00FFFF)) ∧
    (∀ b0 b1 b2 b3 : Nat, b0 < 256 → b1 < 256 → b2 < 256 → b3 < 256 →
      red (b0 + 256 * b1 + 65536 * b2 + 16777216 * b3) = b0 ∧
      green (b0 + 256 * b1 + 65536 * b2 + 16777216 * b3) = b1 ∧
      blue (b0 + 256 * b1 + 65536 * b2 + 16777216 * b3) = b2 ∧
      alpha (b0 + 256 * b1 + 65536 * b2 + 16777216 * b3) = b3) := by
  constructor
  · intro pixel hlt
    rw [red_eq, green_eq, blue_eq, alpha_eq]
    omega
  · intro b0 b1 b2 b3 h0 h1 h2 h3
    rw [red_eq, green_eq, blue_eq, alpha_eq]
    omega

/-- Witness for `spec_C2`: the expected word `0xFF00FFFF` passes, and the
bytes (0xFF, 0xFF, 0x00, 0xFF) pack to it. -/
theorem spec_C2_witness :
    (red 0xFF00FFFF = 0xff ∧ green 0xFF00FFFF = 0xff ∧
      blue 0xFF00FFFF = 0 ∧ alpha 0xFF00FFFF = 0xff) ∧
    red (0xff + 256 * 0xff + 65536 * 0 + 16777216 * 0xff) = 0xff := by
  constructor
  · exact (spec_C2.1 0xFF00FFFF (by norm_num)).mpr rfl
  · exact (spec_C2.2 0xff 0xff 0 0xff (by norm_num) (by norm_num) (by norm_num)
      (by norm_num)).1

/-- When every check passes, the run issues the full call list and exits 0. -/
theorem run_pass (env : Env) (h : stepsPass env program = true) :
    run env = (allCalls env program, Except.ok ()) :=
  exec_all_pass env program h

/-- An environment in which every driver call succeeds and every check
passes: queue family 0 has all three queue bits, the single memory type is
device-local and host-visible, both images accept it, and the readback
word is the expected `0xFF00FFFF`. -/
def env₀ : Env where
  ok := fun _ => true
  queueFlags0 := 7
  memoryTypes := [3]
  write_memoryTypeBits := 1
  read_memoryTypeBits := 1
  pixel := 0xFF00FFFF

/-- C3: under a run where every driver call succeeds and every check
passes, the command buffer records exactly begin render pass (400x400),
clear of color attachment 0 to (1.0, 1.0, 0.0, 1.0), end render pass,
pipeline barrier A, the single full-extent 400x400x1 image copy, and
pipeline barrier B — nothing else — between one begin-recording with the
one-time-submit flag and one end-recording, and the buffer is submitted
exactly once. -/
theorem spec_C3 (env : Env) (h : stepsPass env program = true) :
    (run env).1.filter Call.isRecordingEvent =
      [Call.beginCommandBuffer VK_COMMAND_BUFFER_USAGE_ONE_TIME_SUBMIT_BIT,
        Call.cmd cmd_begin_render_pass, Call.cmd cmd_clear, Call.cmd cmd_end_render_pass,
        Call.cmd barrier_A, Call.cmd cmd_copy, Call.cmd barrier_B,
        Call.endCommandBuffer] ∧
    (run env).1.filter Call.isQueueSubmit = [Call.queueSubmit true] := by
  rw [run_pass env h]
  exact ⟨rfl, rfl⟩

/-- Witness for `spec_C3` at the all-success environment. -/
theorem spec_C3_witness :
    (run env₀).1.filter Call.isQueueSubmit = [Call.queueSubmit true] :=
  (spec_C3 env₀ (by decide)).2

/-- C4: under a run where every check passes, the recorded command
sequence is layout-consistent: starting from the undefined creation
layout of both images, every declared layout (each barrier's old layout
and the copy's source and destination layouts) equals the layout most
recently established for that image, with the render pass's final layout
transitioning the render target to color-attachment-optimal at end of
pass; in particular the copy (command index 4) uses transfer-source for
the render target and transfer-destination for the readback image, and
barrier B (command index 5) declares old layout transfer-destination for
the readback image. -/
theorem spec_C4 (env : Env) (h : stepsPass env program = true) :
    layoutsConsistent initialLayouts (recordedCmds (run env).1) = true ∧
    (recordedCmds (run env).1)[4]? =
      some (Cmd.copyImage VkImage.write_image VkImageLayout.TRANSFER_SRC_OPTIMAL
        VkImage.read_image VkImageLayout.TRANSFER_DST_OPTIMAL ⟨400, 400, 1⟩) ∧
    (recordedCmds (run env).1)[5]? =
      some (Cmd.pipelineBarrier VK_PIPELINE_STAGE_TRANSFER_BIT VK_PIPELINE_STAGE_HOST_BIT
        [⟨VK_ACCESS_TRANSFER_WRITE_BIT, VK_ACCESS_HOST_READ_BIT,
          VkImageLayout.TRANSFER_DST_OPTIMAL, VkImageLayout.GENERAL,
          VkImage.read_image⟩]) := by
  rw [run_pass env h]
  exact ⟨rfl, rfl, rfl⟩

/-- Witness for `spec_C4` at the all-success environment. -/
theorem spec_C4_witness :
    layoutsConsistent initialLayouts (recordedCmds (run env₀).1) = true :=
  (spec_C4 env₀ (by decide)).1

/-- C5: under a run where every check passes, command index 3 is a single
pipeline barrier from color-attachment-output to transfer carrying exactly
two transitions in one call — the readback image undefined →
transfer-destination with access masks 0 → transfer-write, then the
render target color-attachment-optimal → transfer-source with access
masks color-attachment-write → transfer-read — and the image copy follows
at command index 4. -/
theorem spec_C5 (env : Env) (h : stepsPass env program = true) :
    (recordedCmds (run env).1)[3]? =
      some (Cmd.pipelineBarrier VK_PIPELINE_STAGE_COLOR_ATTACHMENT_OUTPUT_BIT
        VK_PIPELINE_STAGE_TRANSFER_BIT
        [⟨0, VK_ACCESS_TRANSFER_WRITE_BIT, VkImageLayout.UNDEFINED,
          VkImageLayout.TRANSFER_DST_OPTIMAL, VkImage.read_image⟩,
          ⟨VK_ACCESS_COLOR_ATTACHMENT_WRITE_BIT, VK_ACCESS_TRANSFER_READ_BIT,
          VkImageLayout.COLOR_ATTACHMENT_OPTIMAL, VkImageLayout.TRANSFER_SRC_OPTIMAL,
          VkImage.write_image⟩]) ∧
    (recordedCmds (run env).1)[4]? = some cmd_copy := by
  rw [run_pass env h]
  exact ⟨rfl, rfl⟩

/-- Witness for `spec_C5` at the all-success environment. -/
theorem spec_C5_witness : (recordedCmds (run env₀).1)[4]? = some cmd_copy :=
  (spec_C5 env₀ (by decide)).2

/-- C6: if memory-type selection fails for an image, the program aborts
before the driver allocation call for that image: on write-image
(device-local) selection failure no `vkAllocateMemory` or
`vkBindImageMemory` for the write image is issued and the run does not
exit 0, and likewise on read-image (host-visible) selection failure for
the read image. -/
theorem spec_C6 (env : Env) :
    ((write_image_selection env).1 = -1 →
      (run env).1.filter (Call.isAllocateMemoryFor VkImage.write_image) = [] ∧
      (run env).1.filter (Call.isBindImageMemoryFor VkImage.write_image) = [] ∧
      (run env).2 ≠ Except.ok ()) ∧
    ((read_image_selection env).1 = -1 →
      (run env).1.filter (Call.isAllocateMemoryFor VkImage.read_image) = [] ∧
      (run env).1.filter (Call.isBindImageMemoryFor VkImage.read_image) = [] ∧
      (run env).2 ≠ Except.ok ()) := by
  constructor
  · intro hsel
    have hcond : ((write_image_selection env).1 == 0) = false := by
      rw [hsel]; decide
    have hstop : exec env (program.drop 5) =
        ([], Except.error "find_appropriate_memory_type for write_image") := by
      have hd : program.drop 5 =
          Step.hostCheck (fun env => (write_image_selection env).1 == 0)
            "find_appropriate_memory_type for write_image" :: program.drop 6 := rfl
      rw [hd]
      exact exec_check_fail hcond
    have hsplit : program = program.take 5 ++ program.drop 5 :=
      (List.take_append_drop 5 program).symm
    have hexec := exec_append env (program.take 5) (program.drop 5)
    rw [List.take_append_drop] at hexec
    have hrun : (run env).1 = (exec env (program.take 5)).1 ∧ (run env).2 ≠ Except.ok () := by
      rw [run, hexec]
      cases h2 : (exec env (program.take 5)).2 with
      | ok u => simp [hstop]
      | error e => simp
    have hpre := exec_trace_initial env (program.take 5)
    exact ⟨by rw [hrun.1]; exact filter_eq_nil_of_initial hpre rfl,
      by rw [hrun.1]; exact filter_eq_nil_of_initial hpre rfl, hrun.2⟩
  · intro hsel
    have hcond : ((read_image_selection env).1 == 0) = false := by
      rw [hsel]; decide
    have hstop : exec env (program.drop 10) =
        ([], Except.error "find_appropriate_memory_type for read_image") := by
      have hd : program.drop 10 =
          Step.hostCheck (fun env => (read_image_selection env).1 == 0)
            "find_appropriate_memory_type for read_image" :: program.drop 11 := rfl
      rw [hd]
      exact exec_check_fail hcond
    have hsplit : program = program.take 10 ++ program.drop 10 :=
      (List.take_append_drop 10 program).symm
    have hexec := exec_append env (program.take 10) (program.drop 10)
    rw [List.take_append_drop] at hexec
    have hrun : (run env).1 = (exec env (program.take 10)).1 ∧ (run env).2 ≠ Except.ok () := by
      rw [run, hexec]
      cases h2 : (exec env (program.take 10)).2 with
      | ok u => simp [hstop]
      | error e => simp
    have hpre := exec_trace_initial env (program.take 10)
    exact ⟨by rw [hrun.1]; exact filter_eq_nil_of_initial hpre rfl,
      by rw [hrun.1]; exact filter_eq_nil_of_initial hpre rfl, hrun.2⟩

/-- An environment in which every driver call would succeed but no memory
type is compatible with either image (`memoryTypeBits = 0`). -/
def env_nomem : Env where
  ok := fun _ => true
  queueFlags0 := 7
  memoryTypes := [3]
  write_memoryTypeBits := 0
  read_memoryTypeBits := 0
  pixel := 0xFF00FFFF

/-- Witness for `spec_C6`: with no compatible memory type, no allocation
for the write image is issued and the run fails. -/
theorem spec_C6_witness :
    (run env_nomem).1.filter (Call.isAllocateMemoryFor VkImage.write_image) = [] ∧
    (run env_nomem).2 ≠ Except.ok () := by
  have h := (spec_C6 env_nomem).1 (by decide)
  exact ⟨h.1, h.2.2⟩

/-- C7: the fence is created with create flags 0 (unsignaled) whenever it
is created at all; every fence wait uses `waitAll = VK_TRUE` and the
effectively unbounded timeout `UINT64_MAX`; the buffer is submitted at
most once and with the fence attached, and waited on at most once — in a
fully successful run, exactly once each; a submission failure prevents
any fence wait and a wait failure prevents the memory mapping, and either
failure makes the run exit non-zero, with no retry or resubmission. -/
theorem spec_C7 (env : Env) :
    (∀ f : Nat, Call.createFence f ∈ (run env).1 → f = 0) ∧
    (∀ (w : Bool) (t : Nat), Call.waitForFences w t ∈ (run env).1 →
      w = true ∧ t = UINT64_MAX) ∧
    (run env).1.filter Call.isQueueSubmit <+: [Call.queueSubmit true] ∧
    (run env).1.filter Call.isWaitForFences <+: [Call.waitForFences true UINT64_MAX] ∧
    (stepsPass env program = true →
      Call.createFence 0 ∈ (run env).1 ∧
      (run env).1.filter Call.isQueueSubmit = [Call.queueSubmit true] ∧
      (run env).1.filter Call.isWaitForFences = [Call.waitForFences true UINT64_MAX]) ∧
    (env.ok CallSite.queueSubmit = false →
      (run env).1.filter Call.isWaitForFences = [] ∧ (run env).2 ≠ Except.ok ()) ∧
    (env.ok CallSite.waitForFences = false →
      (run env).1.filter Call.isMapMemory = [] ∧ (run env).2 ≠ Except.ok ()) := by
  refine ⟨?_, ?_, ?_, ?_, ?_, ?_, ?_⟩
  · intro f hf
    rw [run] at hf
    have hm := mem_of_mem_exec hf
    simp [allCalls, program] at hm
    exact hm
  · intro w t hf
    rw [run] at hf
    have hm := mem_of_mem_exec hf
    simp [allCalls, program] at hm
    exact hm
  · have h2 := (exec_trace_initial env program).filter Call.isQueueSubmit
    have h3 : (allCalls env program).filter Call.isQueueSubmit = [Call.queueSubmit true] := rfl
    rw [run]
    exact h3 ▸ h2
  · have h2 := (exec_trace_initial env program).filter Call.isWaitForFences
    have h3 : (allCalls env program).filter Call.isWaitForFences =
      [Call.waitForFences true UINT64_MAX] := rfl
    rw [run]
    exact h3 ▸ h2
  · intro hpass
    rw [run_pass env hpass]
    refine ⟨by simp [allCalls, program], rfl, rfl⟩
  · intro hfail
    have hd : program.drop 27 =
        Step.call (fun _ => Call.queueSubmit true) (fun env => env.ok CallSite.queueSubmit)
          "vkQueueSubmit" :: program.drop 28 := rfl
    have hstop : exec env (program.drop 27) =
        ([Call.queueSubmit true], Except.error "vkQueueSubmit") := by
      rw [hd]
      exact exec_call_fail hfail
    have hexec := exec_append env (program.take 27) (program.drop 27)
    rw [List.take_append_drop] at hexec
    have hnil : (exec env (program.take 27)).1.filter Call.isWaitForFences = [] :=
      filter_eq_nil_of_initial (exec_trace_initial env (program.take 27)) rfl
    cases h2 : (exec env (program.take 27)).2 with
    | ok u =>
      rw [h2, hstop] at hexec
      rw [run, hexec]
      simp [List.filter_append, hnil]
      rfl
    | error e =>
      rw [h2] at hexec
      rw [run, hexec]
      simp [hnil]
  · intro hfail
    have hd : program.drop 28 =
        Step.call (fun _ => Call.waitForFences true UINT64_MAX)
          (fun env => env.ok CallSite.waitForFences) "vkWaitForFence" :: program.drop 29 := rfl
    have hstop : exec env (program.drop 28) =
        ([Call.waitForFences true UINT64_MAX], Except.error "vkWaitForFence") := by
      rw [hd]
      exact exec_call_fail hfail
    have hexec := exec_append env (program.take 28) (program.drop 28)
    rw [List.take_append_drop] at hexec
    have hnil : (exec env (program.take 28)).1.filter Call.isMapMemory = [] :=
      filter_eq_nil_of_initial (exec_trace_initial env (program.take 28)) rfl
    cases h2 : (exec env (program.take 28)).2 with
    | ok u =>
      rw [h2, hstop] at hexec
      rw [run, hexec]
      simp [List.filter_append, hnil]
      rfl
    | error e =>
      rw [h2] at hexec
      rw [run, hexec]
      simp [hnil]

/-- An environment in which every driver call succeeds except the queue
submission. -/
def env_submit_fails : Env where
  ok := fun s => s != CallSite.queueSubmit
  queueFlags0 := 7
  memoryTypes := [3]
  write_memoryTypeBits := 1
  read_memoryTypeBits := 1
  pixel := 0xFF00FFFF

/-- Witness for `spec_C7`: at the all-success environment the fence is
created unsignaled; when submission fails no fence wait is issued. -/
theorem spec_C7_witness :
    Call.createFence 0 ∈ (run env₀).1 ∧
    (run env_submit_fails).1.filter Call.isWaitForFences = [] := by
  obtain ⟨-, -, -, -, hpass, -, -⟩ := spec_C7 env₀
  obtain ⟨-, -, -, -, -, hsub, -⟩ := spec_C7 env_submit_fails
  exact ⟨(hpass (by decide)).1, (hsub (by decide)).1⟩

/-- All the conditions `main` checks, in one statement: every checked
driver call succeeds, queue family 0 passes the guard, both memory-type
selections succeed, and all four channel comparisons pass. -/
theorem stepsPass_program_iff (env : Env) :
    stepsPass env program = true ↔
      ((∀ s, env.ok s = true) ∧
        env.queueFlags0 &&& (VK_QUEUE_GRAPHICS_BIT ||| VK_QUEUE_TRANSFER_BIT) ≠ 0 ∧
        (write_image_selection env).1 = 0 ∧
        (read_image_selection env).1 = 0 ∧
        red env.pixel = 0xff ∧ green env.pixel = 0xff ∧
        blue env.pixel = 0 ∧ alpha env.pixel = 0xff) := by
  simp only [program, stepsPass, Bool.and_eq_true, Bool.and_true, beq_iff_eq,
    bne_iff_ne, ne_eq]
  constructor
  · rintro ⟨a1, a2, a3, a4, a5, a6, a7, a8, a9, a10, a11, a12, a13, a14, a15, a16, a17,
      a18, a19, a20, a21, a22, a23, a24, a25, a26, a27, a28⟩
    refine ⟨fun s => ?_, a3, a6, a11, a25, a26, a27, a28⟩
    cases s <;> assumption
  · rintro ⟨hok, h3, h6, h11, h25, h26, h27, h28⟩
    exact ⟨hok _, hok _, h3, hok _, hok _, h6, hok _, hok _, hok _, hok _, h11, hok _,
      hok _, hok _, hok _, hok _, hok _, hok _, hok _, hok _, hok _, hok _, hok _,
      hok _, h25, h26, h27, h28⟩

/-- C8: the run exits 0 exactly when every checked driver call succeeded,
the queue-family guard and both memory-type selections passed, and all
four channel comparisons of the final validation passed; any failed check
produces an `Except.error` carrying the printed description (a non-zero
exit), and the issued trace is always an initial segment of the full call
list — nothing executes past the failed check. -/
theorem spec_C8 (env : Env) :
    ((run env).2 = Except.ok () ↔
      ((∀ s, env.ok s = true) ∧
        env.queueFlags0 &&& (VK_QUEUE_GRAPHICS_BIT ||| VK_QUEUE_TRANSFER_BIT) ≠ 0 ∧
        (write_image_selection env).1 = 0 ∧
        (read_image_selection env).1 = 0 ∧
        red env.pixel = 0xff ∧ green env.pixel = 0xff ∧
        blue env.pixel = 0 ∧ alpha env.pixel = 0xff)) ∧
    (run env).1 <+: allCalls env program := by
  constructor
  · rw [run, exec_ok_iff]
    exact stepsPass_program_iff env
  · exact exec_trace_initial env program

/-- Witness for `spec_C8`: the all-success environment exits 0. -/
theorem spec_C8_witness : (run env₀).2 = Except.ok () :=
  (spec_C8 env₀).1.mpr ⟨fun _ => rfl, by decide, by decide, by decide, by decide,
    by decide, by decide, by decide⟩

/-- A word has a nonzero intersection with `0b101` exactly when bit 0 or
bit 2 is set. -/
theorem and_five_ne_zero_iff (flags : Nat) :
    flags &&& 5 ≠ 0 ↔ (Nat.testBit flags 0 = true ∨ Nat.testBit flags 2 = true) := by
  constructor
  · intro h
    by_contra hc
    push_neg at hc
    apply h
    apply Nat.eq_of_testBit_eq
    intro i
    rw [Nat.testBit_and, Nat.zero_testBit]
    rcases Nat.lt_or_ge i 3 with hi | hi
    · interval_cases i
      · cases hb : Nat.testBit flags 0 with
        | false => rw [Bool.false_and]
        | true => exact absurd hb hc.1
      · rw [show Nat.testBit 5 1 = false from by decide, Bool.and_false]
      · cases hb : Nat.testBit flags 2 with
        | false => rw [Bool.false_and]
        | true => exact absurd hb hc.2
    · have h52 : (5 : Nat) < 2 ^ i :=
        lt_of_lt_of_le (by norm_num : (5 : Nat) < 2 ^ 3)
          (Nat.pow_le_pow_right (by norm_num) hi)
      rw [Nat.testBit_eq_false_of_lt h52, Bool.and_false]
  · intro h hzero
    rcases h with h0 | h2
    · have hbit : Nat.testBit (flags &&& 5) 0 = Nat.testBit 0 0 := by rw [hzero]
      rw [Nat.testBit_and, h0, Nat.zero_testBit,
        show Nat.testBit 5 0 = true from by decide] at hbit
      exact absurd hbit (by decide)
    · have hbit : Nat.testBit (flags &&& 5) 2 = Nat.testBit 0 2 := by rw [hzero]
      rw [Nat.testBit_and, h2, Nat.zero_testBit,
        show Nat.testBit 5 2 = true from by decide] at hbit
      exact absurd hbit (by decide)

/-- An all-success environment whose queue family 0 is transfer-only:
`queueFlags = VK_QUEUE_TRANSFER_BIT`, without the graphics bit. -/
def env_transfer_only : Env where
  ok := fun _ => true
  queueFlags0 := VK_QUEUE_TRANSFER_BIT
  memoryTypes := [3]
  write_memoryTypeBits := 1
  read_memoryTypeBits := 1
  pixel := 0xFF00FFFF

/-- C9: the queue-family guard tests `queueFlags & (GRAPHICS | TRANSFER)`
against zero, so it passes exactly when family 0 supports graphics OR
transfer — not necessarily both; with a transfer-only family (graphics bit
clear) the program proceeds to completion and still records the graphics
commands (render-pass begin and attachment clear) on that family. -/
theorem spec_C9 :
    (∀ queueFlags : Nat,
      (queueFlags &&& (VK_QUEUE_GRAPHICS_BIT ||| VK_QUEUE_TRANSFER_BIT) ≠ 0 ↔
        (Nat.testBit queueFlags 0 = true ∨ Nat.testBit queueFlags 2 = true))) ∧
    env_transfer_only.queueFlags0 &&& VK_QUEUE_GRAPHICS_BIT = 0 ∧
    (run env_transfer_only).2 = Except.ok () ∧
    Call.cmd cmd_begin_render_pass ∈ (run env_transfer_only).1 ∧
    Call.cmd cmd_clear ∈ (run env_transfer_only).1 := by
  have hpass : stepsPass env_transfer_only program = true := by decide
  refine ⟨?_, by decide, ?_, ?_, ?_⟩
  · intro queueFlags
    have h5 : VK_QUEUE_GRAPHICS_BIT ||| VK_QUEUE_TRANSFER_BIT = 5 := rfl
    rw [h5]
    exact and_five_ne_zero_iff queueFlags
  · rw [run_pass env_transfer_only hpass]
  · rw [run_pass env_transfer_only hpass]
    simp [allCalls, program]
  · rw [run_pass env_transfer_only hpass]
    simp [allCalls, program]

end LearningVulkan
